import Mathlib

/-!
Verification of the NoiseMonitoring server (socketio-server.js gateway and
data-ingest-service.js batch ingester) against its natural-language
specification.  The JavaScript state (JS `Map` objects, Redis lists, the
Mongo `timeseries` collection and the `counters` collection) is embedded as
association lists and explicit state records; every operation below is a
direct translation of the corresponding source function.
-/

namespace NoiseMonitoring

/-! ### Association-list maps, modelling JS `Map` semantics -/

def mapGet {α : Type} : List (String × α) → String → Option α
  | [], _ => none
  | p :: rest, k => if p.1 = k then some p.2 else mapGet rest k

def mapSet {α : Type} : List (String × α) → String → α → List (String × α)
  | [], k, v => [(k, v)]
  | p :: rest, k, v => if p.1 = k then (k, v) :: rest else p :: mapSet rest k v

def mapUpdate {α : Type} (m : List (String × α)) (k : String) (f : α → α) :
    List (String × α) :=
  m.map (fun p => if p.1 = k then (p.1, f p.2) else p)

def mapDelete {α : Type} (m : List (String × α)) (k : String) :
    List (String × α) :=
  m.filter (fun p => decide (p.1 ≠ k))

def countKey {α : Type} (m : List (String × α)) (k : String) : Nat :=
  m.countP (fun p => decide (p.1 = k))

/-! ### JS truthiness helpers

`a || b` on strings treats the empty string (and a missing value) as falsy. -/

def strTruthy : Option String → Bool
  | none => false
  | some s => s ≠ ""

def jsOr (a b : Option String) : Option String :=
  if strTruthy a then a else b

def jsOrS (o : Option String) (d : String) : String :=
  match o with
  | some s => if s = "" then d else s
  | none => d

/-- Computes `finalNodeId = nodeId || deviceId` followed by the `if (!finalNodeId)`
rejection check in `handleNodeConnection`. -/
def finalId (nodeId deviceId : Option String) : Option String :=
  let f := jsOr nodeId deviceId
  if strTruthy f then f else none

/-! ### Gateway data model (socketio-server.js) -/

/-- The `meta` of a Reading built by `handleESP32Data`. -/
structure Meta where
  source : String
  rawDeviceId : Option String
deriving DecidableEq, Repr

/-- A Reading as constructed by the gateway: the `payload` is the literal
object written by `handleESP32Data` (a list of field-name/value entries,
`none` standing for a JS `undefined` field value). -/
structure Reading where
  nodeId : String
  ts : Nat
  payload : List (String × Option Int)
  meta : Meta
deriving DecidableEq, Repr

/-- A parsed `/save` frame: the `deviceId` property plus the numeric
metric fields of the JSON object. -/
structure Frame where
  deviceId : Option String
  fields : List (String × Int)
deriving DecidableEq, Repr

/-- Entry of the `connectedNodes` registry. -/
structure NodeInfo where
  socketId : String
  connectedAt : Nat
  metadata : List (String × String)
  lastDataAt : Option Nat
deriving DecidableEq, Repr

/-- Events broadcast to dashboard clients via `io.emit`. -/
inductive BEvent where
  | nodeConnected (nodeId : String) (metadata : List (String × String))
  | dataLive (r : Reading)
  | nodeDisconnected (nodeId : String)
deriving DecidableEq, Repr

/-- Gateway-process state: the `connectedNodes` and `nodeBuffers` maps, the
per-node Redis lists under `queue:node:<nodeId>`, the ordered log of
broadcasts, and the wall clock used for `Date.now()`. -/
structure GatewayState where
  connectedNodes : List (String × NodeInfo)
  nodeBuffers : List (String × List Reading)
  queue : List (String × List Reading)
  broadcasts : List BEvent
  time : Nat
deriving DecidableEq, Repr

/-- Per-socket state: the socket id, the `identified` flag, the
`socket.nodeId` reference, the nodeIds captured by `/save` handlers that
`handleNodeConnection` registered on this socket (in registration order),
and whether `socket.disconnect()` was called. -/
structure SocketSt where
  id : String
  identified : Bool
  nodeId : Option String
  saveHandlers : List String
  disconnected : Bool
deriving DecidableEq, Repr

/-- The payload of an `identify` frame. -/
structure IdentifyData where
  type : String
  nodeId : Option String
  deviceId : Option String
  metadata : List (String × String)
deriving DecidableEq, Repr

structure Config where
  bufferSize : Nat
deriving DecidableEq, Repr

/-! ### Gateway operations -/

/-- Models `handleNodeConnection(socket, data)`: compute `finalNodeId`, reject when
falsy, otherwise register the node, initialize its buffer, broadcast
`node:connected`, register a per-node `/save` handler and set
`socket.nodeId`. -/
def handleNodeConnection (s : SocketSt) (g : GatewayState) (d : IdentifyData) :
    SocketSt × GatewayState :=
  match finalId d.nodeId d.deviceId with
  | none => ({ s with disconnected := true }, g)
  | some nid =>
    ({ s with nodeId := some nid, saveHandlers := s.saveHandlers ++ [nid] },
     { g with
        connectedNodes :=
          mapSet g.connectedNodes nid ⟨s.id, g.time, d.metadata, none⟩,
        nodeBuffers := mapSet g.nodeBuffers nid [],
        broadcasts := g.broadcasts ++ [.nodeConnected nid d.metadata] })

def getFieldI (f : Frame) (k : String) : Option Int :=
  mapGet f.fields k

/-- The `payload` object literally written by `handleESP32Data`:
`{ min: data.min, max: data.max, avg: data.avg, current: data.current }`. -/
def payloadOf (f : Frame) : List (String × Option Int) :=
  [("min", getFieldI f "min"), ("max", getFieldI f "max"),
   ("avg", getFieldI f "avg"), ("current", getFieldI f "current")]

/-- The Reading built by `handleESP32Data` from a `/save` frame:
`deviceId = data.deviceId || nodeId`, `ts = Date.now()`, the fixed
four-field payload, and `meta = { source: 'esp32', rawDeviceId }`. -/
def esp32Reading (g : GatewayState) (nid : String) (f : Frame) : Reading :=
  ⟨jsOrS f.deviceId nid, g.time, payloadOf f, ⟨"esp32", f.deviceId⟩⟩

/-- Models `flushToRedis(nodeId)`: no-op on a missing or empty buffer; otherwise
append the whole buffer to the node's Redis list and clear the buffer.
`ok = false` models `pipeline.exec()` throwing, which skips the clear. -/
def flushToRedis (g : GatewayState) (nid : String) (ok : Bool) : GatewayState :=
  match mapGet g.nodeBuffers nid with
  | none => g
  | some buffer =>
    if buffer.length = 0 then g
    else if ok then
      { g with
          queue := mapSet g.queue nid ((mapGet g.queue nid).getD [] ++ buffer),
          nodeBuffers := mapSet g.nodeBuffers nid [] }
    else g

/-- Models `handleESP32Data(nodeId, payload)`: build the Reading, update
`lastDataAt` of the `deviceId` registry entry when present, append to the
`deviceId` buffer, broadcast `data:live`, and flush when the buffer reaches
`BUFFER_SIZE`.  `ok` is passed to the flush when one triggers. -/
def handleESP32Data (cfg : Config) (ok : Bool) (g : GatewayState)
    (nid : String) (f : Frame) : GatewayState :=
  let deviceId := jsOrS f.deviceId nid
  let reading := esp32Reading g nid f
  let buffer := (mapGet g.nodeBuffers deviceId).getD [] ++ [reading]
  let g1 : GatewayState :=
    { g with
        connectedNodes :=
          mapUpdate g.connectedNodes deviceId
            (fun i => { i with lastDataAt := some reading.ts }),
        nodeBuffers := mapSet g.nodeBuffers deviceId buffer,
        broadcasts := g.broadcasts ++ [.dataLive reading] }
  if cfg.bufferSize ≤ buffer.length then flushToRedis g1 deviceId ok else g1

/-- Models `handleDisconnection(socket)`: when the socket id belongs to a
registered node, flush that node's buffer, drop it from both maps and
broadcast `node:disconnected`; otherwise it was a client. -/
def handleDisconnection (s : SocketSt) (ok : Bool) (g : GatewayState) :
    GatewayState :=
  match g.connectedNodes.find? (fun p => p.2.socketId == s.id) with
  | some p =>
    let g1 := flushToRedis g p.1 ok
    { g1 with
        connectedNodes := mapDelete g1.connectedNodes p.1,
        nodeBuffers := mapDelete g1.nodeBuffers p.1,
        broadcasts := g1.broadcasts ++ [.nodeDisconnected p.1] }
  | none => g

/-- The connection-level `identify` handler: set `socket.identified` and
dispatch on the declared type (the client branch touches only the client
set, which no claim consults). -/
def emitIdentify (s : SocketSt) (g : GatewayState) (d : IdentifyData) :
    SocketSt × GatewayState :=
  let s1 := { s with identified := true }
  if d.type = "node" then handleNodeConnection s1 g d
  else (s1, g)

/-- Delivering a `/save` frame to a socket.  Node's `EventEmitter` invokes
the listeners registered at emission start, in registration order: first
the connection-level handler from `setupSocketIO` (which auto-identifies an
unidentified socket and then handles the data through `socket.nodeId`),
then every per-node handler `handleNodeConnection` had registered before
this frame; a handler registered during this emission is not invoked for
it. -/
def emitSave (cfg : Config) (ok : Bool) (s : SocketSt) (g : GatewayState)
    (f : Frame) : SocketSt × GatewayState :=
  let snapshot := s.saveHandlers
  let conn :=
    if s.identified then (s, g)
    else
      let dev := jsOrS f.deviceId ("ESP32_" ++ s.id.take 8)
      let h := handleNodeConnection s g ⟨"node", some dev, some dev, []⟩
      ({ h.1 with identified := true }, h.2)
  let g2 :=
    match conn.1.nodeId with
    | some nid => handleESP32Data cfg ok conn.2 nid f
    | none => conn.2
  let g3 := snapshot.foldl (fun acc nid => handleESP32Data cfg ok acc nid f) g2
  (conn.1, g3)

def countDataLive (l : List BEvent) : Nat :=
  l.countP (fun e => match e with | .dataLive _ => true | _ => false)

def countNodeConnected (l : List BEvent) : Nat :=
  l.countP (fun e => match e with | .nodeConnected _ _ => true | _ => false)

/-! ### Batch ingester model (data-ingest-service.js), per node -/

/-- A Reading as it comes back out of the Redis queue (`JSON.parse` of the
serialized form); `meta` may be absent (`reading.meta || {}`). -/
structure RawReading where
  nodeId : String
  ts : Nat
  payload : List (String × Option Int)
  meta : Option (List (String × String))
deriving DecidableEq, Repr

/-- A persisted document of the `timeseries` collection. -/
structure Rec where
  nodeId : String
  seq : Nat
  ts : Nat
  payload : List (String × Option Int)
  meta : List (String × String)
deriving DecidableEq, Repr

/-- The document constructed in `flushBatch`:
`{ nodeId, seq, ts, payload, meta: reading.meta || {} }`. -/
def mkRec (r : RawReading) (seq : Nat) : Rec :=
  ⟨r.nodeId, seq, r.ts, r.payload, r.meta.getD []⟩

/-- An entry popped from the queue: either a Reading that `JSON.parse`
accepts, or a malformed entry on which it throws. -/
inductive QItem where
  | good (r : RawReading)
  | bad
deriving DecidableEq, Repr

def QItem.isBadItem : QItem → Bool
  | .bad => true
  | .good _ => false

def goodVal : QItem → Option RawReading
  | .good r => some r
  | .bad => none

/-- The ingester batch size `config.batch.size`. -/
def ingestBatchSize : Nat := 150

/-- Durable per-node ingester state: the Redis queue, the `counters`
document's `seq` value, and the node's documents in `timeseries`. -/
structure IngestState where
  queue : List QItem
  counter : Nat
  store : List Rec
deriving DecidableEq, Repr

/-- Models `getNextSequence(nodeId, count)`: atomically increment the counter by
`count` and return `result.seq - count + 1`; yields the new counter value
and the base of the allocated range. -/
def getNextSequence (counter count : Nat) : Nat × Nat :=
  (counter + count, counter + count - count + 1)

inductive FlushOutcome where
  | ok
  | insertFail
deriving DecidableEq, Repr

/-- Models `flushBatch(nodeId, queueKey)`: pop `min(BATCH_SIZE, llen)` entries
head-first, parsing each as it is popped (a parse failure throws, losing
the entries popped so far and reaching neither the counter nor the store);
then allocate the sequence range, build the documents in pop order with
consecutive seqs, and bulk-insert.  `insertFail` models `insertMany`
throwing: the batch is dropped, but the counter increment has already
happened. -/
def flushBatch (st : IngestState) (oc : FlushOutcome) : IngestState :=
  let t := min ingestBatchSize st.queue.length
  if t = 0 then st
  else
    let popped := st.queue.take t
    match popped.findIdx? QItem.isBadItem with
    | some i => { st with queue := st.queue.drop (i + 1) }
    | none =>
      let batch := popped.filterMap goodVal
      let next := getNextSequence st.counter batch.length
      let docs := batch.enum.map (fun p => mkRec p.2 (next.2 + p.1))
      { queue := st.queue.drop t,
        counter := next.1,
        store :=
          match oc with
          | .ok => st.store ++ docs
          | .insertFail => st.store }

/-- Events affecting one node's durable state: the gateway RPUSHes an
entry, or the ingester runs `flushBatch` with the given insert outcome. -/
inductive IngestEv where
  | push (q : QItem)
  | flush (oc : FlushOutcome)
deriving DecidableEq, Repr

def ingestStep (st : IngestState) : IngestEv → IngestState
  | .push q => { st with queue := st.queue ++ [q] }
  | .flush oc => flushBatch st oc

def ingestInit : IngestState := ⟨[], 0, []⟩

def ingestRun (evs : List IngestEv) : IngestState :=
  evs.foldl ingestStep ingestInit

def recSeqs (l : List Rec) : List Nat := l.map (·.seq)

/-- The spec's density invariant: the seqs persisted for the node are
exactly `{1..N}` for some N. -/
def denseSeqs (l : List Rec) : Prop :=
  ∃ N, ∀ s, s ∈ recSeqs l ↔ 1 ≤ s ∧ s ≤ N

/-! ### REST surface -/

/-- A small JSON value type for command payloads. -/
inductive JsonV where
  | emptyObj
  | obj (fields : List (String × Int))
deriving DecidableEq, Repr

/-- The `commandMap` of `POST /api/command/:nodeId`. -/
def commandMap (c : String) : Option String :=
  if c = "setThreshold" then some "/threshold/set"
  else if c = "stop" then some "/stop"
  else if c = "start" then some "/start"
  else if c = "reset" then some "/reset"
  else none

/-- Result of the command endpoint: HTTP status, the `success` flag, and
the frame `["<event>", data]` emitted to the device socket, if any. -/
structure CmdResult where
  status : Nat
  success : Bool
  emitted : Option (String × String × JsonV)
deriving DecidableEq, Repr

/-- Models `POST /api/command/:nodeId`: look up the registry entry, then the live
socket, then the command mapping; on success emit
`socket.emit('event', [eventName, data || {}])`. -/
def postCommand (nodes : List (String × NodeInfo)) (sockets : List String)
    (nodeId command : String) (data : Option JsonV) : CmdResult :=
  match mapGet nodes nodeId with
  | none => ⟨404, false, none⟩
  | some info =>
    if sockets.contains info.socketId then
      match commandMap command with
      | none => ⟨400, false, none⟩
      | some ev => ⟨200, true, some (info.socketId, ev, data.getD .emptyObj)⟩
    else ⟨404, false, none⟩

def seqLE (a b : Rec) : Prop := a.seq ≤ b.seq

instance : DecidableRel seqLE :=
  fun a b => inferInstanceAs (Decidable (a.seq ≤ b.seq))

instance : IsTotal Rec seqLE := ⟨fun a b => Nat.le_total a.seq b.seq⟩

instance : IsTrans Rec seqLE := ⟨fun _ _ _ => Nat.le_trans⟩

/-- The Mongo query of the sync endpoint:
`find({ nodeId, seq: { $gt: lastSeq } })`. -/
def syncFilter (db : List Rec) (nid : String) (n : Int) : List Rec :=
  db.filter (fun r => decide (r.nodeId = nid) && decide (n < (r.seq : Int)))

structure SyncResp where
  status : Nat
  success : Bool
  data : List Rec
deriving DecidableEq, Repr

/-- Models `GET /api/sync/:nodeId?lastSeq=N`: a missing (falsy) `lastSeq` is a
400; otherwise return the matching Records sorted by `seq` ascending, with
no limit applied. -/
def syncEndpoint (db : List Rec) (nid : String) (lastSeq : Option Int) :
    SyncResp :=
  match lastSeq with
  | none => ⟨400, false, []⟩
  | some n => ⟨200, true, List.insertionSort seqLE (syncFilter db nid n)⟩

/-! ### Concrete fixtures used by closed theorems -/

/-- A fresh, not-yet-identified socket. -/
def sockFresh : SocketSt := ⟨"abcd1234efgh", false, none, [], false⟩

/-- An initial gateway state with no nodes, clients or queued data. -/
def gStart : GatewayState := ⟨[], [], [], [], 1000⟩

/-- The default gateway configuration (`BUFFER_SIZE = 100`). -/
def cfg100 : Config := ⟨100⟩

/-- The `/save` frame of the spec's end-to-end scenario 1. -/
def frameA : Frame :=
  ⟨some "ESP32_A", [("min", 10), ("max", 20), ("avg", 15), ("current", 17)]⟩

/-- Two consecutive `/save` frames delivered to a fresh socket: the first
auto-identifies the device, the second is an ordinary data frame. -/
def c2Run : SocketSt × GatewayState :=
  let r1 := emitSave cfg100 true sockFresh gStart frameA
  emitSave cfg100 true r1.1 r1.2 frameA

/-- A `/save` frame carrying a numeric field outside {min,max,avg,current}. -/
def frameX : Frame := ⟨some "ESP32_A", [("median", 42)]⟩

/-- A well-formed queued reading used in ingester traces. -/
def rawR : RawReading := ⟨"N1", 5, [("min", some 1)], some []⟩

/-- A history in which one flush allocates a sequence range but its bulk
insert fails, and a later flush succeeds. -/
def c1Trace : List IngestEv :=
  [.push (.good rawR), .flush .insertFail, .push (.good rawR), .flush .ok]

/-- A history of successful flushes used by the C1 witness. -/
def c1TraceOk : List IngestEv :=
  [.push (.good rawR), .push (.good rawR), .flush .ok]

/-- A single buffered Reading for node N1. -/
def r4w : Reading := ⟨"N1", 5, [], ⟨"esp32", none⟩⟩

/-- A gateway state whose only content is one buffered Reading for N1. -/
def g4w : GatewayState := ⟨[], [("N1", [r4w])], [], [], 7⟩

/-- Registry entry for a node living on socket s1. -/
def infoS1 : NodeInfo := ⟨"s1", 0, [], none⟩

/-- An ingester state with two well-formed queued entries. -/
def c3St : IngestState := ⟨[.good rawR, .good rawR], 4, []⟩

/-- A gateway state used by the C8 witness: one Reading buffered for N1
(one below a `BUFFER_SIZE` of 2). -/
def g8w : GatewayState := ⟨[], [("N1", [r4w])], [], [], 7⟩

/-- A frame with no `deviceId`, so the Reading keys on the registered
node. -/
def frameNoDev : Frame := ⟨none, [("min", 1)]⟩

/-- A frame whose payload names device D2. -/
def frameD2 : Frame := ⟨some "D2", [("min", 1)]⟩

/-- A gateway state where node N1 is registered on socket s1. -/
def g10w : GatewayState := ⟨[("N1", infoS1)], [("N1", [])], [], [], 7⟩

/-- The socket registered as N1 in `g10w`. -/
def sockS1 : SocketSt := ⟨"s1", true, some "N1", ["N1"], false⟩

/-! ### Lemmas about the map helpers -/

theorem mapGet_set {α : Type} (m : List (String × α)) (k k' : String) (v : α) :
    mapGet (mapSet m k v) k' = if k = k' then some v else mapGet m k' := by
  induction m with
  | nil =>
    by_cases h : k = k' <;> simp [mapSet, mapGet, h]
  | cons p rest ih =>
    simp only [mapSet]
    by_cases hp : p.1 = k
    · rw [if_pos hp]
      by_cases h : k = k'
      · simp [mapGet, h]
      · have hp' : ¬ p.1 = k' := by rw [hp]; exact h
        simp [mapGet, h, hp']
    · rw [if_neg hp]
      by_cases hp' : p.1 = k'
      · have h : ¬ k = k' := fun hk => hp (by rw [hp', ← hk])
        simp [mapGet, hp', h]
      · simp [mapGet, hp', ih]

theorem mapGet_set_self {α : Type} (m : List (String × α)) (k : String) (v : α) :
    mapGet (mapSet m k v) k = some v := by
  simp [mapGet_set]

theorem mapGet_set_other {α : Type} (m : List (String × α)) (k k' : String)
    (v : α) (h : k' ≠ k) : mapGet (mapSet m k v) k' = mapGet m k' := by
  have : ¬ (k = k') := fun hk => h hk.symm
  simp [mapGet_set, this]

theorem mapGet_update {α : Type} (m : List (String × α)) (k k' : String)
    (f : α → α) :
    mapGet (mapUpdate m k f) k' =
      if k = k' then (mapGet m k').map f else mapGet m k' := by
  induction m with
  | nil => by_cases h : k = k' <;> simp [mapUpdate, mapGet, h]
  | cons p rest ih =>
    have hrw : mapUpdate (p :: rest) k f
        = (if p.1 = k then (p.1, f p.2) else p) :: mapUpdate rest k f := rfl
    rw [hrw]
    by_cases hp : p.1 = k
    · rw [if_pos hp]
      by_cases h : k = k'
      · have hp' : p.1 = k' := hp.trans h
        simp [mapGet, hp', h]
      · have hp' : ¬ p.1 = k' := by rw [hp]; exact h
        simp [mapGet, hp', h, ih]
    · rw [if_neg hp]
      by_cases hp' : p.1 = k'
      · have h : ¬ k = k' := fun hk => hp (by rw [hp', ← hk])
        simp [mapGet, hp', h]
      · simp [mapGet, hp', ih]

theorem mapGet_update_other {α : Type} (m : List (String × α)) (k k' : String)
    (f : α → α) (h : k' ≠ k) : mapGet (mapUpdate m k f) k' = mapGet m k' := by
  have : ¬ (k = k') := fun hk => h hk.symm
  simp [mapGet_update, this]

theorem mapGet_delete {α : Type} (m : List (String × α)) (k k' : String) :
    mapGet (mapDelete m k) k' = if k = k' then none else mapGet m k' := by
  induction m with
  | nil => by_cases h : k = k' <;> simp [mapDelete, mapGet, h]
  | cons p rest ih =>
    by_cases hp : p.1 = k
    · have hdel : mapDelete (p :: rest) k = mapDelete rest k := by
        simp [mapDelete, List.filter_cons, hp]
      rw [hdel, ih]
      by_cases h : k = k'
      · simp [h]
      · have hp' : ¬ p.1 = k' := by rw [hp]; exact h
        simp [mapGet, hp', h]
    · have hdel : mapDelete (p :: rest) k = p :: mapDelete rest k := by
        simp [mapDelete, List.filter_cons, hp]
      rw [hdel]
      by_cases hp' : p.1 = k'
      · have h : ¬ k = k' := fun hk => hp (by rw [hp', ← hk])
        simp [mapGet, hp', h]
      · simp [mapGet, hp', ih]

theorem mapGet_delete_other {α : Type} (m : List (String × α)) (k k' : String)
    (h : k' ≠ k) : mapGet (mapDelete m k) k' = mapGet m k' := by
  have : ¬ (k = k') := fun hk => h hk.symm
  simp [mapGet_delete, this]

theorem countKey_set {α : Type} (m : List (String × α)) (k : String) (v : α) :
    countKey (mapSet m k v) k = max (countKey m k) 1 := by
  induction m with
  | nil => simp [mapSet, countKey]
  | cons p rest ih =>
    simp only [countKey, mapSet] at ih ⊢
    by_cases hp : p.1 = k
    · rw [if_pos hp]
      simp [List.countP_cons, hp]
      try omega
    · rw [if_neg hp]
      simp [List.countP_cons, hp, ih]
      try omega

/-! ### Claim theorems -/

/-- C2: the claim says each `/save` frame from an identified device yields
exactly one Reading and one `data:live` broadcast (so 2 frames on a
freshly auto-identified socket should yield 2 Readings and 2 broadcasts,
with one `node:connected`).  The code registers a second `/save` handler in
`handleNodeConnection` on top of the connection-level one, so every frame
after identification is handled twice: two frames yield three buffered
Readings and three `data:live` broadcasts. -/
theorem c2_save_frames_double_handled :
    countNodeConnected c2Run.2.broadcasts = 1 ∧
    countDataLive c2Run.2.broadcasts = 3 ∧
    ((mapGet c2Run.2.nodeBuffers "ESP32_A").getD []).length = 3 := by
  decide

/-- C4: gateway flush atomicity.  A failing durable append leaves the whole
gateway state (in particular the buffer) untouched; a successful append on
a nonempty buffer moves exactly the buffered Readings to the tail of the
node's queue and clears the buffer, after which no Reading is both
buffered and queued for that node. -/
theorem c4_flush_failure_atomicity (g : GatewayState) (nid : String) :
    flushToRedis g nid false = g ∧
    (∀ buf, mapGet g.nodeBuffers nid = some buf → buf ≠ [] →
      mapGet (flushToRedis g nid true).nodeBuffers nid = some [] ∧
      mapGet (flushToRedis g nid true).queue nid =
        some ((mapGet g.queue nid).getD [] ++ buf) ∧
      (∀ r : Reading,
        ¬ (r ∈ (mapGet (flushToRedis g nid true).nodeBuffers nid).getD [] ∧
           r ∈ (mapGet (flushToRedis g nid true).queue nid).getD []))) := by
  constructor
  · unfold flushToRedis
    cases h : mapGet g.nodeBuffers nid with
    | none => rfl
    | some buffer => by_cases hl : buffer.length = 0 <;> simp [hl]
  · intro buf hbuf hne
    have hl : ¬ (buf.length = 0) := by
      simpa [List.length_eq_zero] using hne
    have hred : flushToRedis g nid true =
        { g with
            queue := mapSet g.queue nid ((mapGet g.queue nid).getD [] ++ buf),
            nodeBuffers := mapSet g.nodeBuffers nid [] } := by
      unfold flushToRedis
      rw [hbuf]
      simp [hl]
    refine ⟨?_, ?_, ?_⟩
    · rw [hred]; exact mapGet_set_self _ _ _
    · rw [hred]; exact mapGet_set_self _ _ _
    · intro r hr
      have hb : mapGet (flushToRedis g nid true).nodeBuffers nid = some [] := by
        rw [hred]; exact mapGet_set_self _ _ _
      rw [hb] at hr
      simpa using hr.1

/-- C4 witness: a concrete nonempty buffer flushed successfully ends up
queued and the buffer is left empty. -/
theorem c4_flush_failure_atomicity_witness :
    flushToRedis g4w "N1" false = g4w ∧
    mapGet (flushToRedis g4w "N1" true).nodeBuffers "N1" = some [] := by
  refine ⟨(c4_flush_failure_atomicity g4w "N1").1, ?_⟩
  exact ((c4_flush_failure_atomicity g4w "N1").2 [r4w] (by decide)
    (by decide)).1

/-- C5: command dispatch.  For a registered node with a live socket, a
known command is mapped through `commandMap` and emitted as the two-element
frame `[eventName, data]` with the request payload forwarded verbatim, and
the endpoint reports success; an unknown command gives a 400; a nodeId
outside the registry, or a registry entry whose socket is gone, gives a
404. -/
theorem c5_command_dispatch (nodes : List (String × NodeInfo))
    (sockets : List String) (nodeId command : String) (data : Option JsonV) :
    (∀ info ev, mapGet nodes nodeId = some info →
      sockets.contains info.socketId = true →
      commandMap command = some ev →
      postCommand nodes sockets nodeId command data
        = ⟨200, true, some (info.socketId, ev, data.getD .emptyObj)⟩ ∧
      (∀ d, data = some d →
        postCommand nodes sockets nodeId command data
          = ⟨200, true, some (info.socketId, ev, d)⟩)) ∧
    (∀ info, mapGet nodes nodeId = some info →
      sockets.contains info.socketId = true →
      commandMap command = none →
      postCommand nodes sockets nodeId command data = ⟨400, false, none⟩) ∧
    (mapGet nodes nodeId = none →
      postCommand nodes sockets nodeId command data = ⟨404, false, none⟩) ∧
    (∀ info, mapGet nodes nodeId = some info →
      sockets.contains info.socketId = false →
      postCommand nodes sockets nodeId command data = ⟨404, false, none⟩) := by
  refine ⟨?_, ?_, ?_, ?_⟩
  · intro info ev hinfo hsock hcmd
    have hs : info.socketId ∈ sockets := by simpa using hsock
    constructor
    · simp [postCommand, hinfo, hs, hcmd]
    · intro d hd
      simp [postCommand, hinfo, hs, hcmd, hd]
  · intro info hinfo hsock hcmd
    have hs : info.socketId ∈ sockets := by simpa using hsock
    simp [postCommand, hinfo, hs, hcmd]
  · intro hinfo
    simp [postCommand, hinfo]
  · intro info hinfo hsock
    have hs : ¬ (info.socketId ∈ sockets) := by simpa using hsock
    simp [postCommand, hinfo, hs]

/-- C5 witness: with ESP32_A registered on live socket s1,
`setThreshold {threshold: 80}` emits `["/threshold/set", {threshold: 80}]`
with a 200; with an empty registry the same request is a 404. -/
theorem c5_command_dispatch_witness :
    postCommand [("ESP32_A", infoS1)] ["s1"]
        "ESP32_A" "setThreshold" (some (.obj [("threshold", 80)]))
      = ⟨200, true, some ("s1", "/threshold/set", .obj [("threshold", 80)])⟩ ∧
    postCommand [] ["s1"] "ESP32_A" "setThreshold"
        (some (.obj [("threshold", 80)]))
      = ⟨404, false, none⟩ ∧
    postCommand [("ESP32_A", infoS1)] ["s1"]
        "ESP32_A" "selfDestruct" none
      = ⟨400, false, none⟩ ∧
    postCommand [("ESP32_A", infoS1)] []
        "ESP32_A" "setThreshold" none
      = ⟨404, false, none⟩ := by
  refine ⟨?_, ?_, ?_, ?_⟩
  · exact ((c5_command_dispatch [("ESP32_A", infoS1)] ["s1"] "ESP32_A"
      "setThreshold" (some (.obj [("threshold", 80)]))).1 infoS1
      "/threshold/set" (by decide) (by decide) (by decide)).2 _ rfl
  · exact (c5_command_dispatch [] ["s1"] "ESP32_A" "setThreshold"
      (some (.obj [("threshold", 80)]))).2.2.1 (by decide)
  · exact (c5_command_dispatch [("ESP32_A", infoS1)] ["s1"] "ESP32_A"
      "selfDestruct" none).2.1 infoS1 (by decide) (by decide) (by decide)
  · exact (c5_command_dispatch [("ESP32_A", infoS1)] [] "ESP32_A"
      "setThreshold" none).2.2.2 infoS1 (by decide) (by decide)

/-- C7 counterexample: the claim says every numeric field of a `/save`
frame appears in the produced Reading's payload.  A frame with the numeric
field `median` refutes this: the payload written by `handleESP32Data`
contains only the fixed keys min/max/avg/current. -/
theorem c7_open_payload_counterexample :
    ¬ (∀ kv ∈ frameX.fields,
        (kv.1, some kv.2) ∈ (esp32Reading gStart "N1" frameX).payload) := by
  decide

/-- C7 amended: the Reading's payload carries exactly the four fields
min, max, avg and current, each looked up in the frame; every other
numeric field of the frame is dropped. -/
theorem c7_payload_fixed_fields (g : GatewayState) (nid : String) (f : Frame)
    (k : String) :
    mapGet (esp32Reading g nid f).payload k =
      if k = "min" ∨ k = "max" ∨ k = "avg" ∨ k = "current"
      then some (getFieldI f k) else none := by
  by_cases h1 : k = "min"
  · subst h1; simp [esp32Reading, payloadOf, mapGet]
  · by_cases h2 : k = "max"
    · subst h2; simp [esp32Reading, payloadOf, mapGet]
    · by_cases h3 : k = "avg"
      · subst h3; simp [esp32Reading, payloadOf, mapGet]
      · by_cases h4 : k = "current"
        · subst h4; simp [esp32Reading, payloadOf, mapGet]
        · simp [esp32Reading, payloadOf, mapGet, h1, h2, h3, h4,
            Ne.symm h1, Ne.symm h2, Ne.symm h3, Ne.symm h4]

/-- C9: identification idempotence.  Two `identify` frames of type `node`
carrying the same usable id, sent from the same socket, leave exactly one
entry for that node in `connectedNodes` (given the registry held at most
one beforehand, as JS `Map` keys are unique). -/
theorem c9_identify_idempotent (s : SocketSt) (g : GatewayState)
    (d : IdentifyData) (nid : String)
    (htype : d.type = "node")
    (hid : finalId d.nodeId d.deviceId = some nid)
    (hwf : countKey g.connectedNodes nid ≤ 1) :
    countKey
      (emitIdentify (emitIdentify s g d).1 (emitIdentify s g d).2 d).2.connectedNodes
      nid = 1 := by
  simp only [emitIdentify, htype, if_pos, handleNodeConnection, hid]
  rw [countKey_set, countKey_set]
  omega

/-- C9 witness: a concrete double identification of ESP32_A on an empty
registry leaves one registry entry. -/
theorem c9_identify_idempotent_witness :
    countKey
      (emitIdentify
        (emitIdentify sockFresh gStart ⟨"node", some "ESP32_A", none, []⟩).1
        (emitIdentify sockFresh gStart ⟨"node", some "ESP32_A", none, []⟩).2
        ⟨"node", some "ESP32_A", none, []⟩).2.connectedNodes "ESP32_A" = 1 :=
  c9_identify_idempotent sockFresh gStart ⟨"node", some "ESP32_A", none, []⟩
    "ESP32_A" rfl (by decide) (by decide)

/-! ### Helper lemmas about `flushToRedis` -/

theorem flushToRedis_connectedNodes (g : GatewayState) (nid : String)
    (ok : Bool) : (flushToRedis g nid ok).connectedNodes = g.connectedNodes := by
  unfold flushToRedis
  cases h : mapGet g.nodeBuffers nid with
  | none => rfl
  | some buffer =>
    by_cases hl : buffer.length = 0 <;> cases ok <;> simp [hl]

theorem flushToRedis_broadcasts (g : GatewayState) (nid : String)
    (ok : Bool) : (flushToRedis g nid ok).broadcasts = g.broadcasts := by
  unfold flushToRedis
  cases h : mapGet g.nodeBuffers nid with
  | none => rfl
  | some buffer =>
    by_cases hl : buffer.length = 0 <;> cases ok <;> simp [hl]

theorem flushToRedis_buffers_other (g : GatewayState) (nid : String)
    (ok : Bool) (k : String) (hk : k ≠ nid) :
    mapGet (flushToRedis g nid ok).nodeBuffers k = mapGet g.nodeBuffers k := by
  unfold flushToRedis
  cases h : mapGet g.nodeBuffers nid with
  | none => rfl
  | some buffer =>
    by_cases hl : buffer.length = 0
    · simp [hl]
    · cases ok
      · simp [hl]
      · simp [hl, mapGet_set_other _ _ _ _ hk]

theorem flushToRedis_queue_other (g : GatewayState) (nid : String)
    (ok : Bool) (k : String) (hk : k ≠ nid) :
    mapGet (flushToRedis g nid ok).queue k = mapGet g.queue k := by
  unfold flushToRedis
  cases h : mapGet g.nodeBuffers nid with
  | none => rfl
  | some buffer =>
    by_cases hl : buffer.length = 0
    · simp [hl]
    · cases ok
      · simp [hl]
      · simp [hl, mapGet_set_other _ _ _ _ hk]

/-- A successful `flushToRedis` on a nonempty buffer appends the buffer to
the node's queue and clears the buffer. -/
theorem flushToRedis_ok_full (g : GatewayState) (nid : String)
    (buf : List Reading) (hbuf : mapGet g.nodeBuffers nid = some buf)
    (hne : buf ≠ []) :
    flushToRedis g nid true =
      { g with
          queue := mapSet g.queue nid ((mapGet g.queue nid).getD [] ++ buf),
          nodeBuffers := mapSet g.nodeBuffers nid [] } := by
  have hl : ¬ (buf.length = 0) := by
    simpa [List.length_eq_zero] using hne
  unfold flushToRedis
  rw [hbuf]
  simp [hl]

/-- After any successful `flushToRedis` the node's buffer reads as empty:
either it was cleared, or it was already empty or absent. -/
theorem flushToRedis_clears (g : GatewayState) (nid : String) :
    (mapGet (flushToRedis g nid true).nodeBuffers nid).getD [] = [] := by
  unfold flushToRedis
  cases h : mapGet g.nodeBuffers nid with
  | none => simp [h]
  | some buffer =>
    by_cases hl : buffer.length = 0
    · simp [h, hl, List.length_eq_zero.1 hl]
    · simp [hl, mapGet_set_self]

/-! ### Helper lemmas about the ingester -/

theorem filterMap_good_len {l : List QItem}
    (h : ∀ q ∈ l, QItem.isBadItem q = false) :
    (l.filterMap goodVal).length = l.length := by
  induction l with
  | nil => rfl
  | cons a l ih =>
    have ha := h a (List.mem_cons_self a l)
    cases a with
    | bad => simp [QItem.isBadItem] at ha
    | good r =>
      rw [List.filterMap_cons]
      simp only [goodVal, List.length_cons]
      rw [ih (fun q hq => h q (List.mem_cons_of_mem _ hq))]

theorem docs_seqs (batch : List RawReading) (b : Nat) :
    recSeqs (batch.enum.map (fun p => mkRec p.2 (b + p.1)))
      = List.range' b batch.length := by
  show (batch.enum.map (fun p => mkRec p.2 (b + p.1))).map (·.seq)
      = List.range' b batch.length
  rw [List.map_map]
  have h1 : ((·.seq) ∘ fun p : Nat × RawReading => mkRec p.2 (b + p.1))
      = ((b + ·) ∘ Prod.fst) := rfl
  rw [h1, ← List.map_map, List.enum_map_fst, ← List.range'_eq_map_range]

theorem recSeqs_append (l1 l2 : List Rec) :
    recSeqs (l1 ++ l2) = recSeqs l1 ++ recSeqs l2 := by
  simp [recSeqs]

/-- A successful flush preserves the density invariant
`recSeqs store = [1, …, counter]`. -/
theorem flushBatch_ok_seqs (st : IngestState)
    (h : recSeqs st.store = List.range' 1 st.counter) :
    recSeqs (flushBatch st .ok).store
      = List.range' 1 (flushBatch st .ok).counter := by
  unfold flushBatch
  by_cases ht : min ingestBatchSize st.queue.length = 0
  · rw [if_pos ht]
    exact h
  · rw [if_neg ht]
    simp only [getNextSequence]
    generalize (st.queue.take (min ingestBatchSize st.queue.length)).findIdx?
        QItem.isBadItem = fb
    cases fb with
    | some i => exact h
    | none =>
      dsimp only
      rw [recSeqs_append, h, docs_seqs]
      have hc : st.counter +
          ((st.queue.take (min ingestBatchSize st.queue.length)).filterMap
            goodVal).length -
          ((st.queue.take (min ingestBatchSize st.queue.length)).filterMap
            goodVal).length + 1 = 1 + st.counter := by omega
      rw [hc, List.range'_append_1]
      congr 1
      omega

/-- The invariant holds after any event history free of insert failures. -/
theorem ingest_foldl_inv : ∀ (evs : List IngestEv) (st : IngestState),
    IngestEv.flush FlushOutcome.insertFail ∉ evs →
    recSeqs st.store = List.range' 1 st.counter →
    recSeqs (evs.foldl ingestStep st).store
      = List.range' 1 (evs.foldl ingestStep st).counter := by
  intro evs
  induction evs with
  | nil => intro st _ h; simpa using h
  | cons e evs ih =>
    intro st hok h
    have he : e ≠ IngestEv.flush FlushOutcome.insertFail := by
      intro hcontra
      exact hok (hcontra ▸ List.mem_cons_self _ _)
    have hok2 : IngestEv.flush FlushOutcome.insertFail ∉ evs :=
      fun hm => hok (List.mem_cons_of_mem _ hm)
    simp only [List.foldl_cons]
    apply ih _ hok2
    cases e with
    | push q => simpa [ingestStep] using h
    | flush oc =>
      cases oc with
      | ok => exact flushBatch_ok_seqs st h
      | insertFail => exact absurd rfl he

/-! ### Remaining claim theorems -/

/-- C1 counterexample: the claim asserts density of the persisted seq set
even after a flush whose bulk insert failed.  In the history `c1Trace` the
first flush allocates seq 1 but its insert fails; the second flush
allocates and persists seq 2, so the store's seq set is {2}, which is not
`{1..N}` for any N. -/
theorem c1_density_counterexample : ¬ denseSeqs (ingestRun c1Trace).store := by
  intro hden
  obtain ⟨N, hN⟩ := hden
  have h2 : (2 : Nat) ∈ recSeqs (ingestRun c1Trace).store := by decide
  have h1 : ¬ (1 : Nat) ∈ recSeqs (ingestRun c1Trace).store := by decide
  have hN2 := (hN 2).1 h2
  exact h1 ((hN 1).2 ⟨Nat.le_refl 1, by omega⟩)

/-- C1 amended: per-node sequence density holds across any history of
pushes and flushes in which every bulk insert succeeds — including flushes
aborted by parse failures, which consume queue entries but allocate no
sequences.  A failed insert after allocation, by contrast, leaves a
permanent gap (see the counterexample). -/
theorem c1_density_without_insert_failures (evs : List IngestEv)
    (hok : IngestEv.flush FlushOutcome.insertFail ∉ evs) :
    recSeqs (ingestRun evs).store = List.range' 1 (ingestRun evs).counter ∧
    denseSeqs (ingestRun evs).store := by
  have h := ingest_foldl_inv evs ingestInit hok (by rfl)
  refine ⟨h, (ingestRun evs).counter, fun s => ?_⟩
  unfold ingestRun at h ⊢
  rw [h, List.mem_range'_1]
  omega

/-- C1 witness: a concrete insert-failure-free history satisfies density. -/
theorem c1_density_without_insert_failures_witness :
    recSeqs (ingestRun c1TraceOk).store
      = List.range' 1 (ingestRun c1TraceOk).counter ∧
    denseSeqs (ingestRun c1TraceOk).store :=
  c1_density_without_insert_failures c1TraceOk (by decide)

/-- C3: the flush procedure pops `take = min(BATCH_SIZE, L)` entries from
the head of the queue in FIFO order, increments the counter by the batch
count, and builds Records in pop order with consecutive seqs starting at
`seqBase = (new top) − count + 1`. -/
theorem c3_flush_procedure (st : IngestState) (t : Nat)
    (ht : t = min ingestBatchSize st.queue.length)
    (hne : st.queue ≠ [])
    (hgood : ∀ q ∈ st.queue.take t, QItem.isBadItem q = false) :
    (flushBatch st .ok).queue = st.queue.drop t ∧
    (flushBatch st .ok).counter = st.counter + t ∧
    (flushBatch st .ok).store
      = st.store ++ ((st.queue.take t).filterMap goodVal).enum.map
          (fun p => mkRec p.2 ((st.counter + t) - t + 1 + p.1)) := by
  subst ht
  have hpos : 0 < st.queue.length := List.length_pos.2 hne
  have ht0 : ¬ (min ingestBatchSize st.queue.length = 0) := by
    have : 0 < min ingestBatchSize st.queue.length := by
      rw [Nat.lt_min]
      exact ⟨by norm_num [ingestBatchSize], hpos⟩
    omega
  have hidx : (st.queue.take (min ingestBatchSize st.queue.length)).findIdx?
      QItem.isBadItem = none :=
    List.findIdx?_eq_none_iff.2 (fun q hq => hgood q hq)
  have hlen : ((st.queue.take (min ingestBatchSize st.queue.length)).filterMap
      goodVal).length = min ingestBatchSize st.queue.length := by
    rw [filterMap_good_len hgood, List.length_take]
    exact Nat.min_eq_left (Nat.min_le_right _ _)
  unfold flushBatch
  rw [if_neg ht0]
  dsimp only
  rw [hidx]
  dsimp only [getNextSequence]
  refine ⟨rfl, ?_, ?_⟩
  · rw [hlen]
  · simp only [hlen]

/-- C3 witness: flushing a two-entry queue with counter 4 pops both
entries, sets the counter to 6, and stores seqs 5 and 6 in pop order. -/
theorem c3_flush_procedure_witness :
    (flushBatch c3St .ok).queue = c3St.queue.drop 2 ∧
    (flushBatch c3St .ok).counter = c3St.counter + 2 ∧
    (flushBatch c3St .ok).store
      = c3St.store ++ ((c3St.queue.take 2).filterMap goodVal).enum.map
          (fun p => mkRec p.2 ((c3St.counter + 2) - 2 + 1 + p.1)) :=
  c3_flush_procedure c3St 2 (by decide) (by decide) (by decide)

/-- C6: the sync endpoint answers a missing `lastSeq` with a 400 and
`success: false`; with `lastSeq = n` it returns exactly the Records of the
node with `seq > n`, sorted by seq ascending and with no cap applied. -/
theorem c6_sync_endpoint (db : List Rec) (nid : String) :
    ((syncEndpoint db nid none).status = 400 ∧
     (syncEndpoint db nid none).success = false) ∧
    (∀ n : Int,
      (syncEndpoint db nid (some n)).status = 200 ∧
      (syncEndpoint db nid (some n)).success = true ∧
      List.Perm (syncEndpoint db nid (some n)).data (syncFilter db nid n) ∧
      (∀ r : Rec, r ∈ (syncEndpoint db nid (some n)).data ↔
        (r ∈ db ∧ r.nodeId = nid ∧ n < (r.seq : Int))) ∧
      List.Sorted seqLE (syncEndpoint db nid (some n)).data ∧
      (syncEndpoint db nid (some n)).data.length
        = (syncFilter db nid n).length) := by
  refine ⟨⟨rfl, rfl⟩, ?_⟩
  intro n
  refine ⟨rfl, rfl, List.perm_insertionSort seqLE _, ?_,
    List.sorted_insertionSort seqLE _,
    (List.perm_insertionSort seqLE _).length_eq⟩
  intro r
  rw [show (syncEndpoint db nid (some n)).data
      = List.insertionSort seqLE (syncFilter db nid n) from rfl]
  rw [(List.perm_insertionSort seqLE (syncFilter db nid n)).mem_iff]
  simp [syncFilter, List.mem_filter, and_assoc]

/-- C8: a buffer at `BUFFER_SIZE − 1` does not flush on the append that
got it there; appending the `BUFFER_SIZE`-th Reading flushes exactly
`BUFFER_SIZE` items to the queue; and after any successful flush the
buffer reads empty (hence shorter than `BUFFER_SIZE`). -/
theorem c8_buffer_flush_boundary (cfg : Config) (g : GatewayState)
    (nid : String) (f : Frame) (ok : Bool) (hdev : f.deviceId = none) :
    (((mapGet g.nodeBuffers nid).getD []).length + 1 < cfg.bufferSize →
      mapGet (handleESP32Data cfg ok g nid f).nodeBuffers nid
        = some ((mapGet g.nodeBuffers nid).getD [] ++ [esp32Reading g nid f]) ∧
      (handleESP32Data cfg ok g nid f).queue = g.queue) ∧
    (((mapGet g.nodeBuffers nid).getD []).length + 1 = cfg.bufferSize →
      mapGet (handleESP32Data cfg true g nid f).nodeBuffers nid = some [] ∧
      mapGet (handleESP32Data cfg true g nid f).queue nid
        = some ((mapGet g.queue nid).getD [] ++
            ((mapGet g.nodeBuffers nid).getD [] ++ [esp32Reading g nid f])) ∧
      ((mapGet (handleESP32Data cfg true g nid f).queue nid).getD []).length
        = ((mapGet g.queue nid).getD []).length + cfg.bufferSize) ∧
    (∀ (h : GatewayState) (k : String),
      (mapGet (flushToRedis h k true).nodeBuffers k).getD [] = []) := by
  have hdevS : jsOrS f.deviceId nid = nid := by rw [hdev]; rfl
  refine ⟨?_, ?_, fun h k => flushToRedis_clears h k⟩
  · intro hlt
    have hcond : ¬ (cfg.bufferSize ≤
        ((mapGet g.nodeBuffers nid).getD [] ++ [esp32Reading g nid f]).length) := by
      rw [List.length_append]
      simp only [List.length_cons, List.length_nil]
      omega
    unfold handleESP32Data
    rw [hdevS, if_neg hcond]
    exact ⟨mapGet_set_self _ _ _, rfl⟩
  · intro heq
    have hcond : cfg.bufferSize ≤
        ((mapGet g.nodeBuffers nid).getD [] ++ [esp32Reading g nid f]).length := by
      rw [List.length_append]
      simp only [List.length_cons, List.length_nil]
      omega
    have hne2 : (mapGet g.nodeBuffers nid).getD []
        ++ [esp32Reading g nid f] ≠ [] := by simp
    unfold handleESP32Data
    rw [hdevS, if_pos hcond]
    rw [flushToRedis_ok_full _ nid _ (mapGet_set_self _ _ _) hne2]
    refine ⟨mapGet_set_self _ _ _, mapGet_set_self _ _ _, ?_⟩
    rw [mapGet_set_self]
    simp only [Option.getD_some, List.length_append, List.length_cons,
      List.length_nil]
    omega

/-- C8 witness: with `BUFFER_SIZE = 2`, appending to a one-Reading buffer
flushes both items, leaving the buffer empty. -/
theorem c8_buffer_flush_boundary_witness :
    mapGet (handleESP32Data ⟨2⟩ true g8w "N1" frameNoDev).nodeBuffers "N1"
      = some [] ∧
    mapGet (handleESP32Data ⟨2⟩ true g8w "N1" frameNoDev).queue "N1"
      = some ((mapGet g8w.queue "N1").getD [] ++
          ((mapGet g8w.nodeBuffers "N1").getD []
            ++ [esp32Reading g8w "N1" frameNoDev])) ∧
    mapGet (handleESP32Data ⟨3⟩ true g8w "N1" frameNoDev).nodeBuffers "N1"
      = some ((mapGet g8w.nodeBuffers "N1").getD []
          ++ [esp32Reading g8w "N1" frameNoDev]) := by
  refine ⟨?_, ?_, ?_⟩
  · exact (((c8_buffer_flush_boundary ⟨2⟩ g8w "N1" frameNoDev true rfl).2.1)
      (by decide)).1
  · exact (((c8_buffer_flush_boundary ⟨2⟩ g8w "N1" frameNoDev true rfl).2.1)
      (by decide)).2.1
  · exact (((c8_buffer_flush_boundary ⟨3⟩ g8w "N1" frameNoDev true rfl).1)
      (by decide)).1

/-- C10 (implicit claim): a `/save` frame whose payload carries a
`deviceId` different from the registered node id produces a Reading keyed
by the payload's deviceId: it is buffered, broadcast and (on flush) queued
under that id, the registered node's registry entry (hence `lastDataAt`)
is untouched, and a later disconnect of the socket flushes and removes
only the registered node's buffer, never the payload-keyed one. -/
theorem c10_reading_keyed_by_payload_device (cfg : Config) (ok : Bool)
    (g : GatewayState) (nid d : String) (f : Frame)
    (hd : f.deviceId = some d) (hne : d ≠ "") (hdn : d ≠ nid) :
    (esp32Reading g nid f).nodeId = d ∧
    (handleESP32Data cfg ok g nid f).broadcasts
      = g.broadcasts ++ [.dataLive (esp32Reading g nid f)] ∧
    mapGet (handleESP32Data cfg ok g nid f).connectedNodes nid
      = mapGet g.connectedNodes nid ∧
    (((mapGet g.nodeBuffers d).getD []).length + 1 < cfg.bufferSize →
      mapGet (handleESP32Data cfg ok g nid f).nodeBuffers d
        = some ((mapGet g.nodeBuffers d).getD [] ++ [esp32Reading g nid f]) ∧
      mapGet (handleESP32Data cfg ok g nid f).nodeBuffers nid
        = mapGet g.nodeBuffers nid) ∧
    (cfg.bufferSize ≤ ((mapGet g.nodeBuffers d).getD []).length + 1 →
      mapGet (handleESP32Data cfg true g nid f).queue d
        = some ((mapGet g.queue d).getD [] ++
            ((mapGet g.nodeBuffers d).getD [] ++ [esp32Reading g nid f])) ∧
      mapGet (handleESP32Data cfg true g nid f).queue nid
        = mapGet g.queue nid) ∧
    (∀ (h : GatewayState) (s : SocketSt) (okd : Bool) (inf : NodeInfo),
      h.connectedNodes.find? (fun p => p.2.socketId == s.id)
        = some (nid, inf) →
      mapGet (handleDisconnection s okd h).nodeBuffers d
        = mapGet h.nodeBuffers d ∧
      mapGet (handleDisconnection s okd h).queue d = mapGet h.queue d) := by
  have hdevS : jsOrS f.deviceId nid = d := by
    rw [hd]; simp [jsOrS, hne]
  have hrid : (esp32Reading g nid f).nodeId = d := by
    simp [esp32Reading, hdevS]
  have hbuflen : ((mapGet g.nodeBuffers d).getD []
      ++ [esp32Reading g nid f]).length
      = ((mapGet g.nodeBuffers d).getD []).length + 1 := by
    rw [List.length_append]
    simp
  refine ⟨hrid, ?_, ?_, ?_, ?_, ?_⟩
  · unfold handleESP32Data
    rw [hdevS]
    by_cases hc : cfg.bufferSize ≤
        ((mapGet g.nodeBuffers d).getD [] ++ [esp32Reading g nid f]).length
    · rw [if_pos hc, flushToRedis_broadcasts]
    · rw [if_neg hc]
  · unfold handleESP32Data
    rw [hdevS]
    by_cases hc : cfg.bufferSize ≤
        ((mapGet g.nodeBuffers d).getD [] ++ [esp32Reading g nid f]).length
    · rw [if_pos hc, flushToRedis_connectedNodes]
      dsimp only
      exact mapGet_update_other _ _ _ _ (fun hk => hdn hk.symm)
    · rw [if_neg hc]
      dsimp only
      exact mapGet_update_other _ _ _ _ (fun hk => hdn hk.symm)
  · intro hlt
    have hc : ¬ (cfg.bufferSize ≤
        ((mapGet g.nodeBuffers d).getD [] ++ [esp32Reading g nid f]).length) := by
      rw [hbuflen]; omega
    unfold handleESP32Data
    rw [hdevS, if_neg hc]
    exact ⟨mapGet_set_self _ _ _,
      mapGet_set_other _ _ _ _ (fun hk => hdn hk.symm)⟩
  · intro hge
    have hc : cfg.bufferSize ≤
        ((mapGet g.nodeBuffers d).getD [] ++ [esp32Reading g nid f]).length := by
      rw [hbuflen]; omega
    have hne2 : (mapGet g.nodeBuffers d).getD []
        ++ [esp32Reading g nid f] ≠ [] := by simp
    unfold handleESP32Data
    rw [hdevS, if_pos hc]
    rw [flushToRedis_ok_full _ d _ (mapGet_set_self _ _ _) hne2]
    exact ⟨mapGet_set_self _ _ _, mapGet_set_other _ _ _ _ (Ne.symm hdn)⟩
  · intro h s okd inf hfind
    unfold handleDisconnection
    rw [hfind]
    refine ⟨?_, ?_⟩
    · rw [mapGet_delete_other _ _ _ hdn]
      exact flushToRedis_buffers_other h nid okd d hdn
    · exact flushToRedis_queue_other h nid okd d hdn

/-- C10 witness: node N1 is registered, yet a frame naming D2 is buffered
under D2; disconnecting N1's socket leaves D2's buffer untouched. -/
theorem c10_reading_keyed_by_payload_device_witness :
    (esp32Reading g10w "N1" frameD2).nodeId = "D2" ∧
    mapGet (handleESP32Data ⟨2⟩ true g10w "N1" frameD2).nodeBuffers "D2"
      = some ((mapGet g10w.nodeBuffers "D2").getD []
          ++ [esp32Reading g10w "N1" frameD2]) ∧
    mapGet (handleDisconnection sockS1 true g10w).nodeBuffers "D2"
      = mapGet g10w.nodeBuffers "D2" := by
  refine ⟨?_, ?_, ?_⟩
  · exact (c10_reading_keyed_by_payload_device ⟨2⟩ true g10w "N1" "D2"
      frameD2 rfl (by decide) (by decide)).1
  · exact ((c10_reading_keyed_by_payload_device ⟨2⟩ true g10w "N1" "D2"
      frameD2 rfl (by decide) (by decide)).2.2.2.1 (by decide)).1
  · exact ((c10_reading_keyed_by_payload_device ⟨2⟩ true g10w "N1" "D2"
      frameD2 rfl (by decide) (by decide)).2.2.2.2.2 g10w sockS1 true infoS1
      (by decide)).1

end NoiseMonitoring
